import Mathlib

/-!
# HomeMeteoStation: the polling loop of `src/main.cpp`

A shallow embedding of `loop()` and `blinkLED()`.

* `unsigned long` (32 bits on the ESP32) is a `Nat` reduced modulo `2 ^ 32`;
  the subtraction of two timestamps is `usub`.
* `float` is read as exact arithmetic: a finite value is a rational number and
  NaN is `none` (`FloatVal`).  The sums `tempSum` and `humiSum` only ever
  receive values that passed the `isnan` test, so they are rationals.
* `int measurementCount` is an `Int`.  Its increment is the mathematical one:
  signed overflow is undefined in C++, and the count never exceeds the number of
  readings accepted since the start (`run_count_le`), so it needs `2 ^ 31 - 1`
  measurements, ten minutes apart, without a reset.
* The environment of one iteration is an `Input`: the value of `millis()`, the
  Wi-Fi status, the successive answers of the DHT22 and the answers of the mail
  transport.  What the iteration does to the outside world is a list of
  `Event`s, in program order.
* An iteration whose sensor never delivers a valid pair does not end: `loop`
  returns `none` for it, and for no other iteration (`loop_eq_none_iff`).
-/

namespace HomeMeteoStation

/-! ## Data model -/

/-- A `float` as returned by the sensor driver: `none` is NaN. -/
abbrev FloatVal := Option ℚ

/-- The test `isnan(x)`. -/
def isnan (x : FloatVal) : Bool := x.isNone

/-- The constant `MEASUREMENT_INTERVAL = 10 * 60 * 1000` (line 37). -/
def MEASUREMENT_INTERVAL : Nat := 10 * 60 * 1000

/-- The constant `MINUTE_BLINK_INTERVAL = 60 * 1000` (line 38). -/
def MINUTE_BLINK_INTERVAL : Nat := 60 * 1000

/-- Number of values of an `unsigned long`. -/
def ULONG_RANGE : Nat := 2 ^ 32

/-- Subtraction `a - b` of two `unsigned long`s: the difference modulo `2 ^ 32`. -/
def usub (a b : Nat) : Nat := (a + (ULONG_RANGE - b % ULONG_RANGE)) % ULONG_RANGE

/-- The global variables of lines 30-35. -/
structure State where
  tempSum : ℚ
  humiSum : ℚ
  measurementCount : Int
  lastMeasurementTime : Nat
  lastMinuteBlink : Nat
  deriving DecidableEq, Repr

/-- The values of the globals after their initialisers have run. -/
def initState : State :=
  { tempSum := 0, humiSum := 0, measurementCount := 0,
    lastMeasurementTime := 0, lastMinuteBlink := 0 }

/-- What one iteration of `loop()` reads from its environment. -/
structure Input where
  /-- The value `millis()` returns at line 72. -/
  millis : Nat
  /-- Whether `WiFi.status() == WL_CONNECTED` at line 75. -/
  wifiConnected : Bool
  /-- The pairs `(readTemperature(), readHumidity())` of the successive
  attempts of lines 90-91. -/
  dht22 : List (FloatVal × FloatVal)
  /-- The value of `smtp.connect(&config)` at line 135. -/
  smtpConnect : Bool
  /-- The value of `MailClient.sendMail(&smtp, &message)` at line 141. -/
  sendMail : Bool
  deriving DecidableEq, Repr

/-- The observable actions of the firmware. -/
inductive Event where
  /-- A call `digitalWrite(LED_PIN, HIGH)` (`true`) or `LOW` (`false`). -/
  | ledWrite (high : Bool)
  /-- A call `delay(ms)`. -/
  | delay (ms : Int)
  /-- The line "Failed to read from DHT22 sensor, retrying..." (line 94). -/
  | printRetry
  /-- The lines 99-103 printing the accepted reading. -/
  | printReading (tempC humi : ℚ)
  /-- The message body built at lines 116-129 from the two averages. -/
  | composeMessage (avgTemp avgHumi : ℚ)
  /-- The call `smtp.connect(&config)` and its result. -/
  | connectCall (ok : Bool)
  /-- The call `MailClient.sendMail(&smtp, &message)` and its result. -/
  | sendMailCall (ok : Bool)
  /-- The line "Error connecting to SMTP server." (line 137). -/
  | printConnectError
  /-- The lines 143-144 reporting a failed send. -/
  | printSendError
  /-- The line "Email sent successfully!" (line 148). -/
  | printSendOk
  deriving DecidableEq, Repr

/-- The result of an iteration that ends: the new globals and what it did. -/
structure Outcome where
  state : State
  trace : List Event
  deriving DecidableEq, Repr

/-! ## The code -/

/-- The body of the `for` loop of `blinkLED`, run `n` times. -/
def blinkLoop (delayTime : Int) : Nat → List Event
  | 0 => []
  | n + 1 =>
    Event.ledWrite true :: Event.delay delayTime ::
      Event.ledWrite false :: Event.delay delayTime :: blinkLoop delayTime n

/-- The function `blinkLED(times, delayTime)` (lines 179-188): the loop
`for (int i = 0; i < times; i++)` runs `times` times, not at all when
`times <= 0`. -/
def blinkLED (times delayTime : Int) : List Event :=
  blinkLoop delayTime times.toNat

/-- The comparison `currentTime - lastMinuteBlink >= MINUTE_BLINK_INTERVAL` of
line 75. -/
def blinkDue (lastMinuteBlink currentTime : Nat) : Bool :=
  decide (MINUTE_BLINK_INTERVAL ≤ usub currentTime lastMinuteBlink)

/-- The comparison `currentTime - lastMeasurementTime >= MEASUREMENT_INTERVAL`
of line 82. -/
def measurementDue (lastMeasurementTime currentTime : Nat) : Bool :=
  decide (MEASUREMENT_INTERVAL ≤ usub currentTime lastMeasurementTime)

/-- The heartbeat of lines 75-79. -/
def heartbeat (s : State) (currentTime : Nat) (wifiConnected : Bool) : Outcome :=
  if (wifiConnected && blinkDue s.lastMinuteBlink currentTime) = true then
    { state := { s with lastMinuteBlink := currentTime }, trace := blinkLED 1 500 }
  else
    { state := s, trace := [] }

/-- The `do ... while` of lines 88-97 over the successive answers of the
sensor: the accepted pair and what the failed attempts did.  A pair is accepted
when `isnan(tempC) || isnan(humi)` is false, that is when both values are
`some`.  `none` when no answer of the sequence is accepted. -/
def readSensor : List (FloatVal × FloatVal) → Option (ℚ × ℚ × List Event)
  | [] => none
  | (tempC, humi) :: rest =>
    match tempC, humi with
    | some t, some h => some (t, h, [])
    | _, _ =>
      match readSensor rest with
      | none => none
      | some (t, h, tr) => some (t, h, Event.printRetry :: Event.delay 2000 :: tr)

/-- The branch of lines 114-155, entered with `measurementCount >= 6`. -/
def sendReport (s : State) (smtpConnect sendMail : Bool) : Outcome :=
  let avgTemp := s.tempSum / (s.measurementCount : ℚ)
  let avgHumi := s.humiSum / (s.measurementCount : ℚ)
  let prepared := Event.composeMessage avgTemp avgHumi :: blinkLED 10 100
  if smtpConnect = false then
    { state := s,
      trace := prepared ++ [Event.connectCall false, Event.printConnectError] }
  else
    { state := { s with tempSum := 0, humiSum := 0, measurementCount := 0 },
      trace := prepared ++ [Event.connectCall true, Event.sendMailCall sendMail,
        if sendMail = false then Event.printSendError else Event.printSendOk] }

/-- The assignments of lines 108-111. -/
def accumulate (s : State) (tempC humi : ℚ) (currentTime : Nat) : State :=
  { s with
    tempSum := s.tempSum + tempC,
    humiSum := s.humiSum + humi,
    measurementCount := s.measurementCount + 1,
    lastMeasurementTime := currentTime }

/-- The measurement of lines 82-156. -/
def measure (s : State) (currentTime : Nat) (inp : Input) : Option Outcome :=
  if measurementDue s.lastMeasurementTime currentTime = true then
    match readSensor inp.dht22 with
    | none => none
    | some (tempC, humi, retries) =>
      let measured := retries ++ Event.printReading tempC humi :: blinkLED 5 100
      let s2 := accumulate s tempC humi currentTime
      if 6 ≤ s2.measurementCount then
        let sent := sendReport s2 inp.smtpConnect inp.sendMail
        some { state := sent.state, trace := measured ++ sent.trace }
      else
        some { state := s2, trace := measured }
  else
    some { state := s, trace := [] }

/-- One iteration of `loop()` (lines 70-157). -/
def loop (s : State) (inp : Input) : Option Outcome :=
  let currentTime := inp.millis % ULONG_RANGE
  let beat := heartbeat s currentTime inp.wifiConnected
  match measure beat.state currentTime inp with
  | none => none
  | some m => some { state := m.state, trace := beat.trace ++ m.trace }

/-- Successive iterations of `loop()`: the final globals and the trace of each
iteration.  `none` when one of the iterations does not end. -/
def run : State → List Input → Option (State × List (List Event))
  | s, [] => some (s, [])
  | s, inp :: rest =>
    match loop s inp with
    | none => none
    | some out =>
      match run out.state rest with
      | none => none
      | some (s', traces) => some (s', out.trace :: traces)

/-! ## Observations on traces -/

/-- The readings that were accepted and printed, in order. -/
def acceptedReadings : List Event → List (ℚ × ℚ)
  | [] => []
  | Event.printReading t h :: tr => (t, h) :: acceptedReadings tr
  | _ :: tr => acceptedReadings tr

/-- The pairs of averages for which a message was composed, in order. -/
def composedAverages : List Event → List (ℚ × ℚ)
  | [] => []
  | Event.composeMessage a b :: tr => (a, b) :: composedAverages tr
  | _ :: tr => composedAverages tr

/-- The levels written to the LED pin, in order (`true` is HIGH). -/
def ledWrites : List Event → List Bool
  | [] => []
  | Event.ledWrite b :: tr => b :: ledWrites tr
  | _ :: tr => ledWrites tr

/-- Whether the mail transport was called (`smtp.connect` or
`MailClient.sendMail`). -/
def attemptsDispatch : List Event → Bool
  | [] => false
  | Event.connectCall _ :: _ => true
  | Event.sendMailCall _ :: _ => true
  | _ :: tr => attemptsDispatch tr

/-- The trace of `k` failed attempts of the retry loop: the message of line 94
and the wait of line 95, `k` times. -/
def failedAttempts (k : Nat) : List Event :=
  (List.replicate k [Event.printRetry, Event.delay 2000]).flatten

/-- The writes of `n` pulses: HIGH then LOW, `n` times. -/
def pulses (n : Nat) : List Bool :=
  (List.replicate n [true, false]).flatten

/-- The number of readings accepted over the iterations of a run. -/
def measurementsTaken (traces : List (List Event)) : Nat :=
  (traces.map (fun tr => (acceptedReadings tr).length)).sum

/-- The states the firmware can be in at the start of an iteration. -/
inductive Reachable : State → Prop where
  | init : Reachable initState
  | step {s : State} (inp : Input) {out : Outcome} :
      Reachable s → loop s inp = some out → Reachable out.state

/-- The states reached while every call of `smtp.connect` succeeded. -/
inductive ReachableConnected : State → Prop where
  | init : ReachableConnected initState
  | step {s : State} (inp : Input) {out : Outcome} :
      ReachableConnected s → loop s inp = some out →
      Event.connectCall false ∉ out.trace → ReachableConnected out.state

/-! ## Concrete runs -/

/-- An input at `millis`: Wi-Fi down, a sensor that answers `(t, h)` at once and
a mail transport that works. -/
def sampleInput (millis : Nat) (t h : ℚ) : Input :=
  { millis := millis, wifiConnected := false, dht22 := [(some t, some h)],
    smtpConnect := true, sendMail := true }

/-- Ten minutes after start: the sensor fails once, then answers `(20, 50)`. -/
def retryInput : Input :=
  { millis := 600000, wifiConnected := false,
    dht22 := [(none, some 48), (some 20, some 50)], smtpConnect := true, sendMail := true }

/-- What the iteration on `retryInput` does from the initial state. -/
def retryOutcome : Outcome :=
  { state := { tempSum := 20, humiSum := 50, measurementCount := 1,
               lastMeasurementTime := 600000, lastMinuteBlink := 0 },
    trace := Event.printRetry :: Event.delay 2000 :: Event.printReading 20 50 :: blinkLED 5 100 }

/-- The first five measurements of an hour: 20 to 24 degrees. -/
def fiveInputs : List Input :=
  [sampleInput 600000 20 50, sampleInput 1200000 21 51, sampleInput 1800000 22 52,
   sampleInput 2400000 23 53, sampleInput 3000000 24 54]

/-- The globals after `fiveInputs`. -/
def fiveState : State :=
  { tempSum := 110, humiSum := 260, measurementCount := 5,
    lastMeasurementTime := 3000000, lastMinuteBlink := 0 }

/-- The traces of the five iterations on `fiveInputs`. -/
def fiveTraces : List (List Event) :=
  [Event.printReading 20 50 :: blinkLED 5 100, Event.printReading 21 51 :: blinkLED 5 100,
   Event.printReading 22 52 :: blinkLED 5 100, Event.printReading 23 53 :: blinkLED 5 100,
   Event.printReading 24 54 :: blinkLED 5 100]

/-- The sixth measurement of the hour, with the mail server unreachable. -/
def sixthInputOffline : Input :=
  { sampleInput 3600000 25 55 with smtpConnect := false }

/-- The globals after `fiveInputs` and `sixthInputOffline`: six measurements
are still in the accumulator. -/
def stalledState : State :=
  { tempSum := 135, humiSum := 315, measurementCount := 6,
    lastMeasurementTime := 3600000, lastMinuteBlink := 0 }

/-- One minute after start, Wi-Fi up. -/
def blinkInput : Input :=
  { millis := 60000, wifiConnected := true, dht22 := [], smtpConnect := true, sendMail := true }

/-- What the iteration on `blinkInput` does from the initial state. -/
def blinkOutcome : Outcome :=
  { state := { initState with lastMinuteBlink := 60000 }, trace := blinkLED 1 500 }

/-- What the sixth iteration does from `fiveState` when the mail server cannot
be reached. -/
def sixthOutcomeOffline : Outcome :=
  { state := stalledState,
    trace := Event.printReading 25 55 :: (blinkLED 5 100 ++
      Event.composeMessage (45 / 2) (105 / 2) :: (blinkLED 10 100 ++
        [Event.connectCall false, Event.printConnectError])) }

/-- What the sixth iteration does from `fiveState` when the mail goes out. -/
def sixthOutcome : Outcome :=
  { state := { tempSum := 0, humiSum := 0, measurementCount := 0,
               lastMeasurementTime := 3600000, lastMinuteBlink := 0 },
    trace := Event.printReading 25 55 :: (blinkLED 5 100 ++
      Event.composeMessage (45 / 2) (105 / 2) :: (blinkLED 10 100 ++
        [Event.connectCall true, Event.sendMailCall true, Event.printSendOk])) }

/-- What the seventh iteration does from `stalledState`: the averages are over
seven readings. -/
def seventhOutcome : Outcome :=
  { state := { tempSum := 0, humiSum := 0, measurementCount := 0,
               lastMeasurementTime := 4200000, lastMinuteBlink := 0 },
    trace := Event.printReading 32 62 :: (blinkLED 5 100 ++
      Event.composeMessage (167 / 7) (377 / 7) :: (blinkLED 10 100 ++
        [Event.connectCall true, Event.sendMailCall true, Event.printSendOk])) }

/-! ## Auxiliary facts -/

theorem usub_add (last d : Nat) (hlast : last < 2 ^ 32) (hd : d < 2 ^ 32) :
    usub ((last + d) % 2 ^ 32) last = d := by
  unfold usub ULONG_RANGE
  rw [Nat.mod_eq_of_lt hlast]
  omega

theorem readSensor_first_valid (rs : List (FloatVal × FloatVal)) :
    ∀ (k : Nat) (t h : ℚ), rs.get? k = some (some t, some h) →
      (∀ j, j < k → ∀ r, rs.get? j = some r → (isnan r.1 || isnan r.2) = true) →
      readSensor rs = some (t, h, failedAttempts k) := by
  induction rs with
  | nil => intro k t h hk; simp at hk
  | cons r rest ih =>
    intro k t h hk hfirst
    obtain ⟨a, b⟩ := r
    cases k with
    | zero =>
      simp at hk
      obtain ⟨rfl, rfl⟩ := hk
      simp [readSensor, failedAttempts]
    | succ k =>
      have h0 := hfirst 0 (Nat.succ_pos k) (a, b) (by simp)
      have ih' := ih k t h (by simpa using hk)
        (fun j hj r hr => hfirst (j + 1) (by omega) r (by simpa using hr))
      cases a <;> cases b <;> simp [isnan] at h0 <;>
        simp [readSensor, ih', failedAttempts, List.replicate_succ]

theorem readSensor_sound (rs : List (FloatVal × FloatVal)) :
    ∀ (t h : ℚ) (tr : List Event), readSensor rs = some (t, h, tr) →
      ∃ k, rs.get? k = some (some t, some h) ∧
        (∀ j, j < k → ∀ r, rs.get? j = some r → (isnan r.1 || isnan r.2) = true) ∧
        tr = failedAttempts k := by
  induction rs with
  | nil => intro t h tr hr; simp [readSensor] at hr
  | cons r rest ih =>
    intro t h tr hr
    obtain ⟨a, b⟩ := r
    have key : (∃ x y, a = some x ∧ b = some y ∧ t = x ∧ h = y ∧ tr = []) ∨
        ((isnan a || isnan b) = true ∧ ∃ tr', readSensor rest = some (t, h, tr') ∧
          tr = Event.printRetry :: Event.delay 2000 :: tr') := by
      cases a <;> cases b <;> simp [readSensor, isnan] at hr ⊢ <;>
        first
        | (obtain ⟨rfl, rfl, rfl⟩ := hr; simp)
        | (cases hrest : readSensor rest with
          | none => simp [hrest] at hr
          | some v =>
            obtain ⟨t', h', tr'⟩ := v
            simp [hrest] at hr
            obtain ⟨rfl, rfl, rfl⟩ := hr
            simp)
    rcases key with ⟨x, y, rfl, rfl, rfl, rfl, rfl⟩ | ⟨hbad, tr', hrest, rfl⟩
    · exact ⟨0, by simp, by intro j hj; omega, by simp [failedAttempts]⟩
    · obtain ⟨k, hk, hfirst, rfl⟩ := ih t h tr' hrest
      refine ⟨k + 1, by simpa using hk, ?_, by simp [failedAttempts, List.replicate_succ]⟩
      intro j hj r hr
      cases j with
      | zero => simp at hr; subst hr; exact hbad
      | succ j => exact hfirst j (by omega) r (by simpa using hr)

theorem readSensor_returns (rs : List (FloatVal × FloatVal)) :
    ∀ (i : Nat) (t h : ℚ), rs.get? i = some (some t, some h) →
      ∃ v, readSensor rs = some v := by
  induction rs with
  | nil => intro i t h hi; simp at hi
  | cons r rest ih =>
    intro i t h hi
    obtain ⟨a, b⟩ := r
    cases i with
    | zero =>
      simp at hi
      obtain ⟨rfl, rfl⟩ := hi
      exact ⟨_, rfl⟩
    | succ i =>
      obtain ⟨v, hv⟩ := ih i t h (by simpa using hi)
      cases a <;> cases b <;> simp [readSensor, hv]

@[simp] theorem heartbeat_tempSum (s : State) (now : Nat) (w : Bool) :
    (heartbeat s now w).state.tempSum = s.tempSum := by
  unfold heartbeat; split <;> rfl

@[simp] theorem heartbeat_humiSum (s : State) (now : Nat) (w : Bool) :
    (heartbeat s now w).state.humiSum = s.humiSum := by
  unfold heartbeat; split <;> rfl

@[simp] theorem heartbeat_measurementCount (s : State) (now : Nat) (w : Bool) :
    (heartbeat s now w).state.measurementCount = s.measurementCount := by
  unfold heartbeat; split <;> rfl

@[simp] theorem heartbeat_lastMeasurementTime (s : State) (now : Nat) (w : Bool) :
    (heartbeat s now w).state.lastMeasurementTime = s.lastMeasurementTime := by
  unfold heartbeat; split <;> rfl

theorem heartbeat_lastMinuteBlink (s : State) (now : Nat) (w : Bool) :
    (heartbeat s now w).state.lastMinuteBlink =
      if (w && blinkDue s.lastMinuteBlink now) = true then now else s.lastMinuteBlink := by
  unfold heartbeat; split <;> rfl

theorem heartbeat_trace (s : State) (now : Nat) (w : Bool) :
    (heartbeat s now w).trace =
      if (w && blinkDue s.lastMinuteBlink now) = true then blinkLED 1 500 else [] := by
  unfold heartbeat; split <;> rfl

/-- The paths through one iteration that ends. -/
theorem loop_cases (s : State) (inp : Input) (out : Outcome) (hloop : loop s inp = some out) :
    (measurementDue s.lastMeasurementTime (inp.millis % ULONG_RANGE) = false ∧
      out = heartbeat s (inp.millis % ULONG_RANGE) inp.wifiConnected) ∨
    (measurementDue s.lastMeasurementTime (inp.millis % ULONG_RANGE) = true ∧
      ∃ t h k, readSensor inp.dht22 = some (t, h, failedAttempts k) ∧
        ((s.measurementCount + 1 < 6 ∧
          out = ⟨accumulate (heartbeat s (inp.millis % ULONG_RANGE) inp.wifiConnected).state t h
                  (inp.millis % ULONG_RANGE),
                (heartbeat s (inp.millis % ULONG_RANGE) inp.wifiConnected).trace ++
                  (failedAttempts k ++ Event.printReading t h :: blinkLED 5 100)⟩) ∨
         (6 ≤ s.measurementCount + 1 ∧
          out = ⟨(sendReport (accumulate (heartbeat s (inp.millis % ULONG_RANGE) inp.wifiConnected).state
                    t h (inp.millis % ULONG_RANGE)) inp.smtpConnect inp.sendMail).state,
                (heartbeat s (inp.millis % ULONG_RANGE) inp.wifiConnected).trace ++
                  ((failedAttempts k ++ Event.printReading t h :: blinkLED 5 100) ++
                   (sendReport (accumulate (heartbeat s (inp.millis % ULONG_RANGE)
                      inp.wifiConnected).state t h (inp.millis % ULONG_RANGE))
                      inp.smtpConnect inp.sendMail).trace)⟩))) := by
  unfold loop measure at hloop
  generalize inp.millis % ULONG_RANGE = now at hloop ⊢
  simp only [heartbeat_lastMeasurementTime] at hloop
  by_cases hdue : measurementDue s.lastMeasurementTime now = true
  · right
    refine ⟨hdue, ?_⟩
    simp only [hdue, if_true] at hloop
    cases hrs : readSensor inp.dht22 with
    | none => simp [hrs] at hloop
    | some v =>
      obtain ⟨t, h, tr⟩ := v
      obtain ⟨k, -, -, rfl⟩ := readSensor_sound _ _ _ _ hrs
      refine ⟨t, h, k, rfl, ?_⟩
      simp only [hrs] at hloop
      by_cases hc : 6 ≤ s.measurementCount + 1
      · right
        refine ⟨hc, ?_⟩
        simp [accumulate, hc] at hloop ⊢
        exact hloop.symm
      · left
        refine ⟨by omega, ?_⟩
        simp [accumulate, hc] at hloop ⊢
        exact hloop.symm
  · left
    simp only [Bool.not_eq_true] at hdue
    refine ⟨hdue, ?_⟩
    simp [hdue] at hloop
    exact hloop.symm

theorem acceptedReadings_append (a b : List Event) :
    acceptedReadings (a ++ b) = acceptedReadings a ++ acceptedReadings b := by
  induction a with
  | nil => rfl
  | cons e a ih => cases e <;> simp [acceptedReadings, ih]

theorem composedAverages_append (a b : List Event) :
    composedAverages (a ++ b) = composedAverages a ++ composedAverages b := by
  induction a with
  | nil => rfl
  | cons e a ih => cases e <;> simp [composedAverages, ih]

theorem ledWrites_append (a b : List Event) :
    ledWrites (a ++ b) = ledWrites a ++ ledWrites b := by
  induction a with
  | nil => rfl
  | cons e a ih => cases e <;> simp [ledWrites, ih]

theorem attemptsDispatch_append (a b : List Event) :
    attemptsDispatch (a ++ b) = (attemptsDispatch a || attemptsDispatch b) := by
  induction a with
  | nil => rfl
  | cons e a ih => cases e <;> simp [attemptsDispatch, ih]

theorem failedAttempts_succ (k : Nat) :
    failedAttempts (k + 1) = Event.printRetry :: Event.delay 2000 :: failedAttempts k := by
  simp [failedAttempts, List.replicate_succ]

theorem pulses_succ (n : Nat) : pulses (n + 1) = true :: false :: pulses n := by
  simp [pulses, List.replicate_succ]

theorem acceptedReadings_blinkLoop (d : Int) (n : Nat) : acceptedReadings (blinkLoop d n) = [] := by
  induction n with
  | zero => rfl
  | succ n ih => simp [blinkLoop, acceptedReadings, ih]

theorem composedAverages_blinkLoop (d : Int) (n : Nat) : composedAverages (blinkLoop d n) = [] := by
  induction n with
  | zero => rfl
  | succ n ih => simp [blinkLoop, composedAverages, ih]

theorem attemptsDispatch_blinkLoop (d : Int) (n : Nat) : attemptsDispatch (blinkLoop d n) = false := by
  induction n with
  | zero => rfl
  | succ n ih => simp [blinkLoop, attemptsDispatch, ih]

theorem ledWrites_blinkLoop (d : Int) (n : Nat) : ledWrites (blinkLoop d n) = pulses n := by
  induction n with
  | zero => rfl
  | succ n ih => simp [blinkLoop, ledWrites, ih, pulses_succ]

/-- The function `blinkLED` writes `times` HIGH-then-LOW pulses, none when
`times <= 0`. -/
theorem ledWrites_blinkLED (times delayTime : Int) :
    ledWrites (blinkLED times delayTime) = pulses times.toNat :=
  ledWrites_blinkLoop delayTime times.toNat

theorem mem_blinkLoop (d : Int) (n : Nat) (e : Event) (he : e ∈ blinkLoop d n) :
    e = Event.ledWrite true ∨ e = Event.ledWrite false ∨ e = Event.delay d := by
  induction n with
  | zero => simp [blinkLoop] at he
  | succ n ih =>
    simp only [blinkLoop, List.mem_cons] at he
    rcases he with h | h | h | h | h
    · exact Or.inl h
    · exact Or.inr (Or.inr h)
    · exact Or.inr (Or.inl h)
    · exact Or.inr (Or.inr h)
    · exact ih h

theorem acceptedReadings_failedAttempts (k : Nat) : acceptedReadings (failedAttempts k) = [] := by
  induction k with
  | zero => rfl
  | succ k ih => rw [failedAttempts_succ]; exact ih

theorem composedAverages_failedAttempts (k : Nat) : composedAverages (failedAttempts k) = [] := by
  induction k with
  | zero => rfl
  | succ k ih => rw [failedAttempts_succ]; exact ih

theorem attemptsDispatch_failedAttempts (k : Nat) : attemptsDispatch (failedAttempts k) = false := by
  induction k with
  | zero => rfl
  | succ k ih => rw [failedAttempts_succ]; exact ih

theorem ledWrites_failedAttempts (k : Nat) : ledWrites (failedAttempts k) = [] := by
  induction k with
  | zero => rfl
  | succ k ih => rw [failedAttempts_succ]; exact ih

theorem mem_failedAttempts (k : Nat) (e : Event) (he : e ∈ failedAttempts k) :
    e = Event.printRetry ∨ e = Event.delay 2000 := by
  induction k with
  | zero => simp [failedAttempts] at he
  | succ k ih =>
    simp only [failedAttempts_succ, List.mem_cons] at he
    rcases he with h | h | h
    · exact Or.inl h
    · exact Or.inr h
    · exact ih h

theorem acceptedReadings_heartbeat (s : State) (now : Nat) (w : Bool) :
    acceptedReadings (heartbeat s now w).trace = [] := by
  rw [heartbeat_trace]; split
  · exact acceptedReadings_blinkLoop _ _
  · rfl

theorem composedAverages_heartbeat (s : State) (now : Nat) (w : Bool) :
    composedAverages (heartbeat s now w).trace = [] := by
  rw [heartbeat_trace]; split
  · exact composedAverages_blinkLoop _ _
  · rfl

theorem attemptsDispatch_heartbeat (s : State) (now : Nat) (w : Bool) :
    attemptsDispatch (heartbeat s now w).trace = false := by
  rw [heartbeat_trace]; split
  · exact attemptsDispatch_blinkLoop _ _
  · rfl

theorem acceptedReadings_sendReport (s : State) (c m : Bool) :
    acceptedReadings (sendReport s c m).trace = [] := by
  cases c <;> cases m <;>
    simp [sendReport, acceptedReadings, acceptedReadings_append, blinkLED,
      acceptedReadings_blinkLoop]

theorem composedAverages_sendReport (s : State) (c m : Bool) :
    composedAverages (sendReport s c m).trace =
      [(s.tempSum / (s.measurementCount : ℚ), s.humiSum / (s.measurementCount : ℚ))] := by
  cases c <;> cases m <;>
    simp [sendReport, composedAverages, composedAverages_append, blinkLED,
      composedAverages_blinkLoop]

theorem attemptsDispatch_sendReport (s : State) (c m : Bool) :
    attemptsDispatch (sendReport s c m).trace = true := by
  cases c <;> cases m <;>
    simp [sendReport, attemptsDispatch, attemptsDispatch_append, blinkLED,
      attemptsDispatch_blinkLoop]

theorem measurementDue_iff (last now : Nat) :
    measurementDue last now = true ↔ 600000 ≤ usub now last := by
  simp [measurementDue, MEASUREMENT_INTERVAL]

theorem blinkDue_iff (last now : Nat) :
    blinkDue last now = true ↔ 60000 ≤ usub now last := by
  simp [blinkDue, MINUTE_BLINK_INTERVAL]

theorem delay500_not_mem_blinkLoop (n : Nat) : Event.delay 500 ∉ blinkLoop 100 n := by
  intro h
  rcases mem_blinkLoop _ _ _ h with h | h | h <;> simp at h

theorem delay500_not_mem_failedAttempts (k : Nat) : Event.delay 500 ∉ failedAttempts k := by
  intro h
  rcases mem_failedAttempts _ _ h with h | h <;> simp at h

theorem delay500_not_mem_sendReport (s : State) (c m : Bool) :
    Event.delay 500 ∉ (sendReport s c m).trace := by
  cases c <;> cases m <;> simp [sendReport, blinkLED, delay500_not_mem_blinkLoop]

theorem measure_no_delay500 (s : State) (now : Nat) (inp : Input) (m : Outcome)
    (hm : measure s now inp = some m) : Event.delay 500 ∉ m.trace := by
  unfold measure at hm
  split at hm
  · cases hrs : readSensor inp.dht22 with
    | none => simp [hrs] at hm
    | some v =>
      obtain ⟨t, h, tr⟩ := v
      obtain ⟨k, -, -, rfl⟩ := readSensor_sound _ _ _ _ hrs
      simp only [hrs] at hm
      split at hm <;> simp only [Option.some.injEq] at hm <;> subst hm <;>
        simp [blinkLED, delay500_not_mem_blinkLoop, delay500_not_mem_failedAttempts,
          delay500_not_mem_sendReport]
  · simp only [Option.some.injEq] at hm
    subst hm
    simp

theorem measure_lastMinuteBlink (s : State) (now : Nat) (inp : Input) (b : Nat) :
    measure { s with lastMinuteBlink := b } now inp =
      (measure s now inp).map
        (fun m => { state := { m.state with lastMinuteBlink := b }, trace := m.trace }) := by
  unfold measure
  simp only
  split
  · cases hrs : readSensor inp.dht22 with
    | none => simp
    | some v =>
      obtain ⟨t, h, tr⟩ := v
      simp only [accumulate]
      split
      · cases hc : inp.smtpConnect <;> simp [sendReport]
      · simp
  · simp

theorem loop_unfold (s : State) (inp : Input) (out : Outcome) (hloop : loop s inp = some out) :
    ∃ m, measure (heartbeat s (inp.millis % 2 ^ 32) inp.wifiConnected).state
        (inp.millis % 2 ^ 32) inp = some m ∧
      out = ⟨m.state, (heartbeat s (inp.millis % 2 ^ 32) inp.wifiConnected).trace ++ m.trace⟩ := by
  unfold loop at hloop
  rw [show inp.millis % ULONG_RANGE = inp.millis % 2 ^ 32 from rfl] at hloop
  generalize inp.millis % 2 ^ 32 = now at hloop ⊢
  simp only at hloop
  cases hm : measure (heartbeat s now inp.wifiConnected).state now inp with
  | none => simp [hm] at hloop
  | some m =>
    simp only [hm, Option.some.injEq] at hloop
    exact ⟨m, rfl, hloop.symm⟩

theorem measure_keeps_lastMinuteBlink (s : State) (now : Nat) (inp : Input) (m : Outcome)
    (hm : measure s now inp = some m) : m.state.lastMinuteBlink = s.lastMinuteBlink := by
  have h := measure_lastMinuteBlink s now inp s.lastMinuteBlink
  rw [show ({ s with lastMinuteBlink := s.lastMinuteBlink } : State) = s from rfl, hm] at h
  simp only [Option.map_some', Option.some.injEq] at h
  rw [h]

theorem heartbeat_state_restore (s : State) (now : Nat) (w : Bool) :
    ({ (heartbeat s now w).state with lastMinuteBlink := s.lastMinuteBlink } : State) = s := by
  unfold heartbeat; split <;> rfl

theorem heartbeat_fires_iff (w : Bool) (last now : Nat) :
    (w && blinkDue last now) = true ↔ (w = true ∧ 60000 ≤ usub now last) := by
  simp [blinkDue_iff]

theorem sendReport_state (s : State) (c m : Bool) :
    (sendReport s c m).state =
      if c = false then s else { s with tempSum := 0, humiSum := 0, measurementCount := 0 } := by
  cases c <;> rfl

/-- One iteration that ends, by the path it took: what it accepted, what it
composed and what it left in the globals. -/
theorem loop_paths (s : State) (inp : Input) (out : Outcome) (hloop : loop s inp = some out) :
    (¬ 600000 ≤ usub (inp.millis % 2 ^ 32) s.lastMeasurementTime ∧
      acceptedReadings out.trace = [] ∧ composedAverages out.trace = [] ∧
      attemptsDispatch out.trace = false ∧
      out.state.tempSum = s.tempSum ∧ out.state.humiSum = s.humiSum ∧
      out.state.measurementCount = s.measurementCount) ∨
    (600000 ≤ usub (inp.millis % 2 ^ 32) s.lastMeasurementTime ∧
      ∃ t h k, readSensor inp.dht22 = some (t, h, failedAttempts k) ∧
        acceptedReadings out.trace = [(t, h)] ∧
        out.state.lastMeasurementTime = inp.millis % 2 ^ 32 ∧
        ((s.measurementCount + 1 < 6 ∧ composedAverages out.trace = [] ∧
            attemptsDispatch out.trace = false ∧
            out.state.tempSum = s.tempSum + t ∧ out.state.humiSum = s.humiSum + h ∧
            out.state.measurementCount = s.measurementCount + 1) ∨
         (6 ≤ s.measurementCount + 1 ∧
            composedAverages out.trace =
              [((s.tempSum + t) / ((s.measurementCount + 1 : Int) : ℚ),
                (s.humiSum + h) / ((s.measurementCount + 1 : Int) : ℚ))] ∧
            attemptsDispatch out.trace = true ∧
            ((inp.smtpConnect = false ∧ Event.connectCall false ∈ out.trace ∧
                out.state.tempSum = s.tempSum + t ∧ out.state.humiSum = s.humiSum + h ∧
                out.state.measurementCount = s.measurementCount + 1) ∨
             (inp.smtpConnect = true ∧ Event.sendMailCall inp.sendMail ∈ out.trace ∧
                out.state.tempSum = 0 ∧ out.state.humiSum = 0 ∧
                out.state.measurementCount = 0))))) := by
  have hc := loop_cases s inp out hloop
  rw [show inp.millis % ULONG_RANGE = inp.millis % 2 ^ 32 from rfl] at hc
  generalize inp.millis % 2 ^ 32 = now at hc ⊢
  rw [← measurementDue_iff]
  rcases hc with ⟨hdue, rfl⟩ | ⟨hdue, t, h, k, hrs, ⟨hlt, rfl⟩ | ⟨hge, rfl⟩⟩
  · left
    simp [hdue, acceptedReadings_heartbeat, composedAverages_heartbeat,
      attemptsDispatch_heartbeat]
  · right
    refine ⟨hdue, t, h, k, hrs, ?_, rfl, Or.inl ⟨hlt, ?_, ?_, ?_⟩⟩
    · simp [acceptedReadings_append, acceptedReadings_heartbeat,
        acceptedReadings_failedAttempts, acceptedReadings, blinkLED, acceptedReadings_blinkLoop]
    · simp [composedAverages_append, composedAverages_heartbeat,
        composedAverages_failedAttempts, composedAverages, blinkLED, composedAverages_blinkLoop]
    · simp [attemptsDispatch_append, attemptsDispatch_heartbeat,
        attemptsDispatch_failedAttempts, attemptsDispatch, blinkLED, attemptsDispatch_blinkLoop]
    · simp [accumulate]
  · right
    refine ⟨hdue, t, h, k, hrs, ?_, ?_, Or.inr ⟨hge, ?_, ?_, ?_⟩⟩
    · simp [acceptedReadings_append, acceptedReadings_heartbeat,
        acceptedReadings_failedAttempts, acceptedReadings, blinkLED, acceptedReadings_blinkLoop,
        acceptedReadings_sendReport]
    · simp [sendReport_state, accumulate]; split <;> rfl
    · simp [composedAverages_append, composedAverages_heartbeat,
        composedAverages_failedAttempts, composedAverages, blinkLED, composedAverages_blinkLoop,
        composedAverages_sendReport, accumulate]
    · simp [attemptsDispatch_append, attemptsDispatch_heartbeat,
        attemptsDispatch_failedAttempts, attemptsDispatch, blinkLED, attemptsDispatch_blinkLoop,
        attemptsDispatch_sendReport]
    · cases hcon : inp.smtpConnect
      · left
        simp [sendReport, accumulate]
      · right
        simp [sendReport, accumulate]

/-- An iteration whose sensor delivers an accepted pair ends. -/
theorem loop_returns (s : State) (inp : Input) (v : ℚ × ℚ × List Event)
    (hrs : readSensor inp.dht22 = some v) : ∃ out, loop s inp = some out := by
  obtain ⟨t, h, tr⟩ := v
  unfold loop measure
  simp only [hrs]
  split_ifs <;> exact ⟨_, rfl⟩

/-- An iteration whose sampling gate does not fire ends. -/
theorem loop_idle (s : State) (inp : Input)
    (hdue : measurementDue s.lastMeasurementTime (inp.millis % ULONG_RANGE) = false) :
    loop s inp = some (heartbeat s (inp.millis % ULONG_RANGE) inp.wifiConnected) := by
  unfold loop measure
  simp [hdue]

/-- The retry loop gives no result exactly when every answer of the sequence
has a NaN. -/
theorem readSensor_eq_none_iff (rs : List (FloatVal × FloatVal)) :
    readSensor rs = none ↔ ∀ r ∈ rs, (isnan r.1 || isnan r.2) = true := by
  induction rs with
  | nil => simp [readSensor]
  | cons r rest ih =>
    obtain ⟨a, b⟩ := r
    have hstep : ∀ (o : Option (ℚ × ℚ × List Event)),
        (match o with
          | none => (none : Option (ℚ × ℚ × List Event))
          | some (t, h, tr) => some (t, h, Event.printRetry :: Event.delay 2000 :: tr)) = none ↔
        o = none := by
      intro o
      cases o <;> simp
    cases a <;> cases b <;> simp [readSensor, isnan, hstep, ih]

/-- The only iteration that does not end is one whose sampling gate fires while
the sensor never delivers a valid pair. -/
theorem loop_eq_none_iff (s : State) (inp : Input) :
    loop s inp = none ↔
      (600000 ≤ usub (inp.millis % 2 ^ 32) s.lastMeasurementTime ∧
        ∀ r ∈ inp.dht22, (isnan r.1 || isnan r.2) = true) := by
  rw [← readSensor_eq_none_iff, ← measurementDue_iff]
  change _ ↔ (measurementDue s.lastMeasurementTime (inp.millis % ULONG_RANGE) = true ∧ _)
  constructor
  · intro hnone
    cases hdue : measurementDue s.lastMeasurementTime (inp.millis % ULONG_RANGE) with
    | false => rw [loop_idle s inp hdue] at hnone; simp at hnone
    | true =>
      refine ⟨rfl, ?_⟩
      cases hrs : readSensor inp.dht22 with
      | none => rfl
      | some v =>
        obtain ⟨out, hout⟩ := loop_returns s inp v hrs
        rw [hout] at hnone
        simp at hnone
  · rintro ⟨hdue, hrs⟩
    unfold loop measure
    simp [hdue, hrs]

theorem run_nil (s s' : State) (traces : List (List Event))
    (hrun : run s [] = some (s', traces)) : s' = s ∧ traces = [] := by
  simp only [run, Option.some.injEq, Prod.mk.injEq] at hrun
  exact ⟨hrun.1.symm, hrun.2.symm⟩

theorem run_cons (s : State) (inp : Input) (rest : List Input) (s' : State)
    (traces : List (List Event)) (hrun : run s (inp :: rest) = some (s', traces)) :
    ∃ out traces', loop s inp = some out ∧ run out.state rest = some (s', traces') ∧
      traces = out.trace :: traces' := by
  unfold run at hrun
  cases hl : loop s inp with
  | none => simp [hl] at hrun
  | some out =>
    simp only [hl] at hrun
    cases hr : run out.state rest with
    | none => simp [hr] at hrun
    | some v =>
      obtain ⟨s'', traces'⟩ := v
      simp only [hr, Option.some.injEq, Prod.mk.injEq] at hrun
      exact ⟨out, traces', rfl, by rw [hr, hrun.1], hrun.2.symm⟩

theorem loop_count_le (s : State) (inp : Input) (out : Outcome) (hloop : loop s inp = some out) :
    out.state.measurementCount ≤ s.measurementCount + (acceptedReadings out.trace).length := by
  rcases loop_paths s inp out hloop with
    ⟨-, hacc, -, -, -, -, h3⟩ | ⟨-, t, h, k, -, hacc, -, hrest⟩
  · simp [hacc, h3]
  · rw [hacc]
    rcases hrest with ⟨-, -, -, -, -, h3⟩ | ⟨hge, -, -, ⟨-, -, -, -, h3⟩ | ⟨-, -, -, -, h3⟩⟩
    · simp [h3]
    · simp [h3]
    · simp only [h3, List.length_cons, List.length_nil, Nat.cast_one]; omega

theorem run_count_le (inputs : List Input) :
    ∀ (s s' : State) (traces : List (List Event)), run s inputs = some (s', traces) →
      s'.measurementCount ≤ s.measurementCount + measurementsTaken traces := by
  induction inputs with
  | nil =>
    intro s s' traces hrun
    obtain ⟨rfl, rfl⟩ := run_nil _ _ _ hrun
    simp [measurementsTaken]
  | cons inp rest ih =>
    intro s s' traces hrun
    obtain ⟨out, traces', hloop, hrest, rfl⟩ := run_cons _ _ _ _ _ hrun
    have h1 := loop_count_le s inp out hloop
    have h2 := ih out.state s' traces' hrest
    simp only [measurementsTaken, List.map_cons, List.sum_cons, Nat.cast_add] at h2 ⊢
    omega

theorem reachable_of_run (inputs : List Input) :
    ∀ (s s' : State) (traces : List (List Event)), Reachable s →
      run s inputs = some (s', traces) → Reachable s' := by
  induction inputs with
  | nil =>
    intro s s' traces hs hrun
    obtain ⟨rfl, -⟩ := run_nil _ _ _ hrun
    exact hs
  | cons inp rest ih =>
    intro s s' traces hs hrun
    obtain ⟨out, traces', hloop, hrest, -⟩ := run_cons _ _ _ _ _ hrun
    exact ih out.state s' traces' (Reachable.step inp hs hloop) hrest

theorem reachableConnected_of_run (inputs : List Input) :
    ∀ (s s' : State) (traces : List (List Event)), ReachableConnected s →
      run s inputs = some (s', traces) → (∀ tr ∈ traces, Event.connectCall false ∉ tr) →
      ReachableConnected s' := by
  induction inputs with
  | nil =>
    intro s s' traces hs hrun _
    obtain ⟨rfl, -⟩ := run_nil _ _ _ hrun
    exact hs
  | cons inp rest ih =>
    intro s s' traces hs hrun hok
    obtain ⟨out, traces', hloop, hrest, rfl⟩ := run_cons _ _ _ _ _ hrun
    exact ih out.state s' traces'
      (ReachableConnected.step inp hs hloop (hok _ (List.mem_cons_self _ _))) hrest
      (fun tr htr => hok tr (List.mem_cons_of_mem _ htr))

theorem count_bounds_of_reachableConnected (s : State) (hs : ReachableConnected s) :
    0 ≤ s.measurementCount ∧ s.measurementCount ≤ 5 := by
  induction hs with
  | init => simp [initState]
  | step inp hs hloop hok ih =>
    rename_i s out
    rcases loop_paths s inp out hloop with
      ⟨-, -, -, -, -, -, h3⟩ | ⟨-, t, h, k, -, -, -, hrest⟩
    · rw [h3]; exact ih
    · rcases hrest with ⟨hlt, -, -, -, -, h3⟩ | ⟨hge, -, -, ⟨-, hmem, -⟩ | ⟨-, -, -, -, h3⟩⟩
      · rw [h3]; omega
      · exact absurd hmem hok
      · rw [h3]; omega

/-- A run that accepts fewer readings than the threshold only accumulates:
iterations whose gate does not fire may come in between. -/
theorem run_firing (inputs : List Input) :
    ∀ (readings : List (ℚ × ℚ)) (s s' : State) (traces : List (List Event)),
      run s inputs = some (s', traces) →
      (traces.map acceptedReadings).flatten = readings →
      s.measurementCount + readings.length < 6 →
      s'.tempSum = s.tempSum + (readings.map Prod.fst).sum ∧
      s'.humiSum = s.humiSum + (readings.map Prod.snd).sum ∧
      s'.measurementCount = s.measurementCount + readings.length ∧
      ∀ tr ∈ traces, composedAverages tr = [] := by
  induction inputs with
  | nil =>
    intro readings s s' traces hrun hacc _
    obtain ⟨rfl, rfl⟩ := run_nil _ _ _ hrun
    simp only [List.map_nil, List.flatten_nil] at hacc
    subst hacc
    simp
  | cons inp rest ih =>
    intro readings s s' traces hrun hacc hlt
    obtain ⟨out, traces', hloop, hrest, rfl⟩ := run_cons _ _ _ _ _ hrun
    simp only [List.map_cons, List.flatten_cons] at hacc
    rcases loop_paths s inp out hloop with
      ⟨-, hnone, hcomp, -, h1, h2, h3⟩ | ⟨-, t, h, k, -, hone, -, hpath⟩
    · rw [hnone, List.nil_append] at hacc
      obtain ⟨g1, g2, g3, g4⟩ := ih readings out.state s' traces' hrest hacc (by rw [h3]; exact hlt)
      refine ⟨by rw [g1, h1], by rw [g2, h2], by rw [g3, h3], ?_⟩
      intro tr htr
      rcases List.mem_cons.mp htr with rfl | htr
      · exact hcomp
      · exact g4 tr htr
    · rw [hone] at hacc
      subst hacc
      simp only [List.singleton_append, List.length_cons, Nat.cast_add, Nat.cast_one] at hlt
      rcases hpath with ⟨-, hcomp, -, h1, h2, h3⟩ | ⟨hge, -⟩
      · obtain ⟨g1, g2, g3, g4⟩ := ih _ out.state s' traces' hrest rfl (by rw [h3]; omega)
        refine ⟨?_, ?_, ?_, ?_⟩
        · rw [g1, h1]; simp [add_assoc]
        · rw [g2, h2]; simp [add_assoc]
        · rw [g3, h3]
          simp only [List.singleton_append, List.length_cons, Nat.cast_add, Nat.cast_one]
          omega
        · intro tr htr
          rcases List.mem_cons.mp htr with rfl | htr
          · exact hcomp
          · exact g4 tr htr
      · omega

/-! ## Concrete runs, evaluated -/

theorem loop_retryInput : loop initState retryInput = some retryOutcome := by
  simp [loop, measure, heartbeat, readSensor, accumulate, measurementDue, usub, ULONG_RANGE,
    MEASUREMENT_INTERVAL, initState, retryInput, retryOutcome]

theorem loop_blinkInput : loop initState blinkInput = some blinkOutcome := by
  simp [loop, measure, heartbeat, measurementDue, blinkDue, usub, ULONG_RANGE,
    MEASUREMENT_INTERVAL, MINUTE_BLINK_INTERVAL, initState, blinkInput, blinkOutcome]

theorem run_fiveInputs : run initState fiveInputs = some (fiveState, fiveTraces) := by
  simp [run, loop, measure, heartbeat, readSensor, accumulate, measurementDue, usub, ULONG_RANGE,
    MEASUREMENT_INTERVAL, initState, fiveInputs, sampleInput, fiveState, fiveTraces]
  norm_num

theorem loop_sixth : loop fiveState (sampleInput 3600000 25 55) = some sixthOutcome := by
  simp [loop, measure, heartbeat, readSensor, accumulate, sendReport, measurementDue, usub,
    ULONG_RANGE, MEASUREMENT_INTERVAL, sampleInput, fiveState, sixthOutcome]
  norm_num

theorem loop_sixthOffline : loop fiveState sixthInputOffline = some sixthOutcomeOffline := by
  simp [loop, measure, heartbeat, readSensor, accumulate, sendReport, measurementDue, usub,
    ULONG_RANGE, MEASUREMENT_INTERVAL, sampleInput, fiveState, sixthInputOffline, stalledState,
    sixthOutcomeOffline]
  norm_num

theorem loop_seventh : loop stalledState (sampleInput 4200000 32 62) = some seventhOutcome := by
  simp [loop, measure, heartbeat, readSensor, accumulate, sendReport, measurementDue, usub,
    ULONG_RANGE, MEASUREMENT_INTERVAL, sampleInput, stalledState, seventhOutcome]
  norm_num

theorem attemptsDispatch_sixthOutcome : attemptsDispatch sixthOutcome.trace = true := by
  simp [sixthOutcome, attemptsDispatch, attemptsDispatch_append, blinkLED,
    attemptsDispatch_blinkLoop]

theorem reachableConnected_fiveState : ReachableConnected fiveState := by
  refine reachableConnected_of_run fiveInputs initState fiveState fiveTraces
    ReachableConnected.init run_fiveInputs ?_
  intro tr htr
  simp only [fiveTraces, List.mem_cons, List.mem_singleton, List.not_mem_nil, or_false] at htr
  rcases htr with rfl | rfl | rfl | rfl | rfl <;>
    · intro hmem
      simp only [List.mem_cons, blinkLED] at hmem
      rcases hmem with hmem | hmem
      · simp at hmem
      · rcases mem_blinkLoop _ _ _ hmem with h | h | h <;> simp at h

/-! ## The claims -/

/-- C1: starting from the reset accumulator, when the iterations of a run accept
five readings `(t1, h1)` to `(t5, h5)`, in this order, and the next measuring
iteration accepts `(t6, h6)`, the averages computed in that sixth measuring
iteration are `(t1 + ... + t6) / 6` and `(h1 + ... + h6) / 6` in exact
arithmetic, and no iteration before it computes an average.  Iterations whose
gate does not fire may lie between the measuring ones. -/
theorem average_of_six (s0 s5 : State) (inputs : List Input) (traces : List (List Event))
    (inp6 : Input) (out6 : Outcome) (t1 t2 t3 t4 t5 t6 h1 h2 h3 h4 h5 h6 : ℚ)
    (htemp : s0.tempSum = 0) (hhumi : s0.humiSum = 0) (hcount : s0.measurementCount = 0)
    (hrun : run s0 inputs = some (s5, traces))
    (hfive : (traces.map acceptedReadings).flatten =
      [(t1, h1), (t2, h2), (t3, h3), (t4, h4), (t5, h5)])
    (hloop : loop s5 inp6 = some out6)
    (hsixth : acceptedReadings out6.trace = [(t6, h6)]) :
    composedAverages out6.trace =
      [((t1 + t2 + t3 + t4 + t5 + t6) / 6, (h1 + h2 + h3 + h4 + h5 + h6) / 6)] ∧
    ∀ tr ∈ traces, composedAverages tr = [] := by
  obtain ⟨g1, g2, g3, g4⟩ := run_firing inputs
    [(t1, h1), (t2, h2), (t3, h3), (t4, h4), (t5, h5)] s0 s5 traces hrun hfive
    (by rw [hcount]; simp)
  refine ⟨?_, g4⟩
  rw [htemp] at g1
  rw [hhumi] at g2
  rw [hcount] at g3
  simp only [List.map_cons, List.map_nil, List.sum_cons, List.sum_nil, List.length_cons,
    List.length_nil] at g1 g2 g3
  rcases loop_paths s5 inp6 out6 hloop with
    ⟨-, hnone, -⟩ | ⟨-, t, h, k, -, hone, -, hpath⟩
  · rw [hnone] at hsixth; simp at hsixth
  · rw [hone] at hsixth
    simp only [List.cons.injEq, Prod.mk.injEq, and_true] at hsixth
    obtain ⟨rfl, rfl⟩ := hsixth
    rcases hpath with ⟨hlt, -⟩ | ⟨-, hcomp, -⟩
    · rw [g3] at hlt; norm_num at hlt
    · rw [hcomp, g1, g2, g3]
      norm_num
      constructor <;> ring

/-- Witness of C1: temperatures 20, 21, 22, 23, 24, 25 give the average 22.5. -/
theorem average_of_six_witness :
    run initState fiveInputs = some (fiveState, fiveTraces) ∧
    loop fiveState (sampleInput 3600000 25 55) = some sixthOutcome ∧
    composedAverages sixthOutcome.trace =
      [((20 + 21 + 22 + 23 + 24 + 25) / 6, (50 + 51 + 52 + 53 + 54 + 55) / 6)] ∧
    ((20 + 21 + 22 + 23 + 24 + 25) / 6 : ℚ) = 22.5 :=
  ⟨run_fiveInputs, loop_sixth,
    (average_of_six initState fiveState fiveInputs fiveTraces (sampleInput 3600000 25 55)
      sixthOutcome 20 21 22 23 24 25 50 51 52 53 54 55 rfl rfl rfl run_fiveInputs
      (by simp [fiveTraces, acceptedReadings, blinkLED, acceptedReadings_blinkLoop])
      loop_sixth
      (by simp [sixthOutcome, acceptedReadings, acceptedReadings_append, blinkLED,
        acceptedReadings_blinkLoop])).1,
    by norm_num⟩

/-- C2: no email is sent before the sixth measurement of a cycle.  After any
run of iterations that starts with `measurementCount = 0`, an iteration calls
the mail transport only if its sampling gate fired and `measurementCount` was at
least 5 on entry; at least five readings were accepted before it in the run, so
none of the first five measuring iterations calls it, and an iteration whose
gate does not fire never does. -/
theorem no_mail_before_sixth (s0 s : State) (inputs : List Input)
    (traces : List (List Event)) (inp : Input) (out : Outcome)
    (hcount : s0.measurementCount = 0)
    (hrun : run s0 inputs = some (s, traces))
    (hloop : loop s inp = some out)
    (hmail : attemptsDispatch out.trace = true) :
    600000 ≤ usub (inp.millis % 2 ^ 32) s.lastMeasurementTime ∧
    5 ≤ s.measurementCount ∧ 5 ≤ measurementsTaken traces := by
  have hle := run_count_le inputs s0 s traces hrun
  rw [hcount] at hle
  rcases loop_paths s inp out hloop with
    ⟨-, -, -, hno, -⟩ | ⟨hdue, t, h, k, -, -, -, ⟨-, -, hno, -⟩ | ⟨hge, -⟩⟩
  · rw [hno] at hmail; simp at hmail
  · rw [hno] at hmail; simp at hmail
  · exact ⟨hdue, by omega, by omega⟩

/-- Witness of C2: the mail of the sixth measurement, after five measurements
from the initial state. -/
theorem no_mail_before_sixth_witness :
    initState.measurementCount = 0 ∧
    run initState fiveInputs = some (fiveState, fiveTraces) ∧
    loop fiveState (sampleInput 3600000 25 55) = some sixthOutcome ∧
    attemptsDispatch sixthOutcome.trace = true ∧
    600000 ≤ usub ((sampleInput 3600000 25 55).millis % 2 ^ 32) fiveState.lastMeasurementTime ∧
    5 ≤ fiveState.measurementCount ∧ 5 ≤ measurementsTaken fiveTraces :=
  ⟨rfl, run_fiveInputs, loop_sixth, attemptsDispatch_sixthOutcome,
    no_mail_before_sixth initState fiveState fiveInputs fiveTraces (sampleInput 3600000 25 55)
      sixthOutcome rfl run_fiveInputs loop_sixth attemptsDispatch_sixthOutcome⟩

/-- C3: accumulator and count are reset together.  An iteration that ends
leaves `(tempSum, humiSum, measurementCount)` in one of three shapes, decided by
the path it took: unchanged when the sampling gate did not fire; advanced by the
accepted reading `(t, h)` to `(tempSum + t, humiSum + h, measurementCount + 1)`
when it fired without a completed dispatch; all three `0` when it fired, the
count reached 6 and `smtp.connect` succeeded.  The three paths exclude each
other, and none zeroes only part of the three. -/
theorem accumulator_reset_together (s : State) (inp : Input) (out : Outcome)
    (hloop : loop s inp = some out) :
    (¬ 600000 ≤ usub (inp.millis % 2 ^ 32) s.lastMeasurementTime ∧
      out.state.tempSum = s.tempSum ∧ out.state.humiSum = s.humiSum ∧
      out.state.measurementCount = s.measurementCount) ∨
    (600000 ≤ usub (inp.millis % 2 ^ 32) s.lastMeasurementTime ∧
      ¬ (6 ≤ s.measurementCount + 1 ∧ inp.smtpConnect = true) ∧
      ∃ t h, acceptedReadings out.trace = [(t, h)] ∧ (some t, some h) ∈ inp.dht22 ∧
        out.state.tempSum = s.tempSum + t ∧ out.state.humiSum = s.humiSum + h ∧
        out.state.measurementCount = s.measurementCount + 1) ∨
    (600000 ≤ usub (inp.millis % 2 ^ 32) s.lastMeasurementTime ∧
      (6 ≤ s.measurementCount + 1 ∧ inp.smtpConnect = true) ∧
      out.state.tempSum = 0 ∧ out.state.humiSum = 0 ∧ out.state.measurementCount = 0) := by
  rcases loop_paths s inp out hloop with
    ⟨hdue, -, -, -, h1, h2, h3⟩ | ⟨hdue, t, h, k, hrs, hacc, -, hrest⟩
  · exact Or.inl ⟨hdue, h1, h2, h3⟩
  · obtain ⟨k', hk, -, -⟩ := readSensor_sound _ _ _ _ hrs
    have hmem : (some t, some h) ∈ inp.dht22 := List.get?_mem hk
    rcases hrest with ⟨hlt, -, -, h1, h2, h3⟩ | ⟨hge, -, -, hcon⟩
    · exact Or.inr (Or.inl ⟨hdue, fun hx => by omega, t, h, hacc, hmem, h1, h2, h3⟩)
    · rcases hcon with ⟨hc, -, h1, h2, h3⟩ | ⟨hc, -, h1, h2, h3⟩
      · exact Or.inr (Or.inl ⟨hdue, fun hx => by simp [hc] at hx, t, h, hacc, hmem, h1, h2, h3⟩)
      · exact Or.inr (Or.inr ⟨hdue, ⟨hge, hc⟩, h1, h2, h3⟩)

/-- Witness of C3: the first measurement after start, accepted at the second
attempt, advances all three by the reading `(20, 50)`. -/
theorem accumulator_reset_together_witness :
    loop initState retryInput = some retryOutcome ∧
    ((¬ 600000 ≤ usub (retryInput.millis % 2 ^ 32) initState.lastMeasurementTime ∧
      retryOutcome.state.tempSum = initState.tempSum ∧
      retryOutcome.state.humiSum = initState.humiSum ∧
      retryOutcome.state.measurementCount = initState.measurementCount) ∨
    (600000 ≤ usub (retryInput.millis % 2 ^ 32) initState.lastMeasurementTime ∧
      ¬ (6 ≤ initState.measurementCount + 1 ∧ retryInput.smtpConnect = true) ∧
      ∃ t h, acceptedReadings retryOutcome.trace = [(t, h)] ∧
        (some t, some h) ∈ retryInput.dht22 ∧
        retryOutcome.state.tempSum = initState.tempSum + t ∧
        retryOutcome.state.humiSum = initState.humiSum + h ∧
        retryOutcome.state.measurementCount = initState.measurementCount + 1) ∨
    (600000 ≤ usub (retryInput.millis % 2 ^ 32) initState.lastMeasurementTime ∧
      (6 ≤ initState.measurementCount + 1 ∧ retryInput.smtpConnect = true) ∧
      retryOutcome.state.tempSum = 0 ∧ retryOutcome.state.humiSum = 0 ∧
      retryOutcome.state.measurementCount = 0)) :=
  ⟨loop_retryInput, accumulator_reset_together initState retryInput retryOutcome loop_retryInput⟩

/-- C4: in an iteration that reaches the dispatch branch (the sampling gate
fired and `measurementCount >= 6` after the increment) the accumulator is reset
to `(0, 0, 0)` if and only if `smtp.connect` succeeds; when it succeeds the
reset happens for either result of `MailClient.sendMail`; when it fails the
iteration ends with the accumulated, incremented values and with
`lastMeasurementTime` already set to the current time. -/
theorem dispatch_reset_iff_connect (s : State) (inp : Input) (out : Outcome)
    (hloop : loop s inp = some out)
    (hdue : 600000 ≤ usub (inp.millis % 2 ^ 32) s.lastMeasurementTime)
    (hcount : 6 ≤ s.measurementCount + 1) :
    ((out.state.tempSum = 0 ∧ out.state.humiSum = 0 ∧ out.state.measurementCount = 0) ↔
      inp.smtpConnect = true) ∧
    (inp.smtpConnect = true →
      ∀ sendResult : Bool, ∃ out2, loop s { inp with sendMail := sendResult } = some out2 ∧
        Event.sendMailCall sendResult ∈ out2.trace ∧
        out2.state.tempSum = 0 ∧ out2.state.humiSum = 0 ∧ out2.state.measurementCount = 0 ∧
        out2.state.lastMeasurementTime = inp.millis % 2 ^ 32) ∧
    (inp.smtpConnect = false →
      ∃ t h, acceptedReadings out.trace = [(t, h)] ∧
        out.state.tempSum = s.tempSum + t ∧ out.state.humiSum = s.humiSum + h ∧
        out.state.measurementCount = s.measurementCount + 1 ∧
        out.state.lastMeasurementTime = inp.millis % 2 ^ 32) := by
  rcases loop_paths s inp out hloop with ⟨hnot, -⟩ | ⟨-, t, h, k, hrs, hacc, htime, hrest⟩
  · exact absurd hdue hnot
  · rcases hrest with ⟨hlt, -⟩ | ⟨-, -, -, hcon⟩
    · omega
    · rcases hcon with ⟨hc, -, h1, h2, h3⟩ | ⟨hc, -, h1, h2, h3⟩
      · refine ⟨⟨fun hz => ?_, fun hx => by simp [hc] at hx⟩, fun hx => by simp [hc] at hx,
          fun _ => ⟨t, h, hacc, h1, h2, h3, htime⟩⟩
        have := hz.2.2
        omega
      · refine ⟨⟨fun _ => hc, fun _ => ⟨h1, h2, h3⟩⟩, fun _ sendResult => ?_,
          fun hx => by simp [hc] at hx⟩
        obtain ⟨out2, hloop2⟩ := loop_returns s { inp with sendMail := sendResult } _ hrs
        refine ⟨out2, hloop2, ?_⟩
        rcases loop_paths s _ out2 hloop2 with ⟨hnot, -⟩ | ⟨-, t2, h2', k2, -, -, htime2, hrest2⟩
        · exact absurd hdue hnot
        · rcases hrest2 with ⟨hlt, -⟩ | ⟨-, -, -, hcon2⟩
          · omega
          · rcases hcon2 with ⟨hc2, -⟩ | ⟨-, hmem, g1, g2, g3⟩
            · have : inp.smtpConnect = false := hc2
              simp [hc] at this
            · exact ⟨hmem, g1, g2, g3, htime2⟩

/-- Witness of C4: the sixth measurement with the mail server unreachable keeps
the six accumulated readings and the new `lastMeasurementTime`. -/
theorem dispatch_reset_iff_connect_witness :
    loop fiveState sixthInputOffline = some sixthOutcomeOffline ∧
    600000 ≤ usub (sixthInputOffline.millis % 2 ^ 32) fiveState.lastMeasurementTime ∧
    6 ≤ fiveState.measurementCount + 1 ∧
    ((sixthOutcomeOffline.state.tempSum = 0 ∧ sixthOutcomeOffline.state.humiSum = 0 ∧
        sixthOutcomeOffline.state.measurementCount = 0) ↔
      sixthInputOffline.smtpConnect = true) ∧
    sixthOutcomeOffline.state.measurementCount = 6 ∧
    sixthOutcomeOffline.state.lastMeasurementTime = 3600000 :=
  ⟨loop_sixthOffline, by decide, by decide,
    (dispatch_reset_iff_connect fiveState sixthInputOffline sixthOutcomeOffline
      loop_sixthOffline (by decide) (by decide)).1, rfl, rfl⟩

/-- C5: the sampling timer gate.  An iteration that ends accepts a reading
exactly when `now - lastMeasurementTime >= 600000` in unsigned 32-bit
arithmetic; then it accepts exactly one, however large the difference is, and
ends with `lastMeasurementTime = now`; otherwise it accepts none and leaves
`lastMeasurementTime`, `tempSum`, `humiSum` and `measurementCount` as they
were. -/
theorem sampling_timer_gate (s : State) (inp : Input) (out : Outcome)
    (hloop : loop s inp = some out) :
    (acceptedReadings out.trace ≠ [] ↔
      600000 ≤ usub (inp.millis % 2 ^ 32) s.lastMeasurementTime) ∧
    (600000 ≤ usub (inp.millis % 2 ^ 32) s.lastMeasurementTime →
      (acceptedReadings out.trace).length = 1 ∧
      out.state.lastMeasurementTime = inp.millis % 2 ^ 32) ∧
    (¬ 600000 ≤ usub (inp.millis % 2 ^ 32) s.lastMeasurementTime →
      acceptedReadings out.trace = [] ∧
      out.state.lastMeasurementTime = s.lastMeasurementTime ∧
      out.state.tempSum = s.tempSum ∧ out.state.humiSum = s.humiSum ∧
      out.state.measurementCount = s.measurementCount) := by
  have hc := loop_cases s inp out hloop
  rw [show inp.millis % ULONG_RANGE = inp.millis % 2 ^ 32 from rfl] at hc
  generalize inp.millis % 2 ^ 32 = now at hc ⊢
  rw [← measurementDue_iff]
  rcases hc with ⟨hdue, rfl⟩ | ⟨hdue, t, h, k, -, ⟨-, rfl⟩ | ⟨-, rfl⟩⟩
  · simp [hdue, acceptedReadings_heartbeat]
  · simp [hdue, acceptedReadings_append, acceptedReadings_heartbeat,
      acceptedReadings_failedAttempts, acceptedReadings, blinkLED, acceptedReadings_blinkLoop,
      accumulate]
  · have hs : ∀ (x : State) (c m : Bool),
        (sendReport x c m).state.lastMeasurementTime = x.lastMeasurementTime := by
      intro x c m; cases c <;> rfl
    simp [hdue, acceptedReadings_append, acceptedReadings_heartbeat,
      acceptedReadings_failedAttempts, acceptedReadings, blinkLED, acceptedReadings_blinkLoop,
      acceptedReadings_sendReport, hs, accumulate]

/-- Witness of C5: ten minutes after start the gate fires, one reading is
accepted and `lastMeasurementTime` becomes the current time. -/
theorem sampling_timer_gate_witness :
    loop initState retryInput = some retryOutcome ∧
    600000 ≤ usub (retryInput.millis % 2 ^ 32) initState.lastMeasurementTime ∧
    (acceptedReadings retryOutcome.trace).length = 1 ∧
    retryOutcome.state.lastMeasurementTime = retryInput.millis % 2 ^ 32 :=
  ⟨loop_retryInput, by decide,
    (sampling_timer_gate initState retryInput retryOutcome loop_retryInput).2.1 (by decide)⟩

/-- C6: the sensor retry loop terminates once a valid pair is returned.  When
the sequence of answers has a pair with both values non-NaN at some index, the
loop ends; it makes exactly `k` failed attempts, each followed by the 2000 ms
wait, where `k` is the index of the first pair with both values non-NaN, and it
accepts that pair.  An iteration of `loop()` whose sampling gate fires then
ends, and the pair it adds to the accumulator is that pair. -/
theorem sensor_retry_terminates (rs : List (FloatVal × FloatVal)) (i : Nat) (t0 h0 : ℚ)
    (hvalid : rs.get? i = some (some t0, some h0)) :
    ∃ k t h, k ≤ i ∧ rs.get? k = some (some t, some h) ∧
      (∀ j, j < k → ∀ r, rs.get? j = some r → (isnan r.1 || isnan r.2) = true) ∧
      readSensor rs = some (t, h, failedAttempts k) ∧
      failedAttempts k = (List.replicate k [Event.printRetry, Event.delay 2000]).flatten ∧
      (∀ (s : State) (inp : Input), inp.dht22 = rs →
        600000 ≤ usub (inp.millis % 2 ^ 32) s.lastMeasurementTime →
        ∃ out, loop s inp = some out ∧ acceptedReadings out.trace = [(t, h)] ∧
          (s.measurementCount + 1 < 6 ∨ inp.smtpConnect = false →
            out.state.tempSum = s.tempSum + t ∧ out.state.humiSum = s.humiSum + h ∧
            out.state.measurementCount = s.measurementCount + 1) ∧
          (6 ≤ s.measurementCount + 1 →
            composedAverages out.trace =
              [((s.tempSum + t) / ((s.measurementCount + 1 : Int) : ℚ),
                (s.humiSum + h) / ((s.measurementCount + 1 : Int) : ℚ))])) := by
  obtain ⟨v, hv⟩ := readSensor_returns rs i t0 h0 hvalid
  obtain ⟨t, h, tr⟩ := v
  obtain ⟨k, hk, hfirst, rfl⟩ := readSensor_sound rs t h tr hv
  have hle : k ≤ i := by
    by_contra hlt
    have hbad := hfirst i (by omega) _ hvalid
    simp [isnan] at hbad
  refine ⟨k, t, h, hle, hk, hfirst, hv, rfl, ?_⟩
  intro s inp hinp hdue
  subst hinp
  obtain ⟨out, hloop⟩ := loop_returns s inp _ hv
  refine ⟨out, hloop, ?_⟩
  rcases loop_paths s inp out hloop with ⟨hnot, -⟩ | ⟨-, t2, h2, k2, hrs2, hacc, -, hpath⟩
  · exact absurd hdue hnot
  · rw [hv] at hrs2
    simp only [Option.some.injEq, Prod.mk.injEq] at hrs2
    obtain ⟨rfl, rfl, -⟩ := hrs2
    refine ⟨hacc, ?_, ?_⟩
    · intro hcase
      rcases hpath with ⟨-, -, -, g1, g2, g3⟩ | ⟨hge, -, -, ⟨-, -, g1, g2, g3⟩ | ⟨hc, -⟩⟩
      · exact ⟨g1, g2, g3⟩
      · exact ⟨g1, g2, g3⟩
      · rcases hcase with hlt | hoff
        · omega
        · rw [hc] at hoff; simp at hoff
    · intro hge
      rcases hpath with ⟨hlt, -⟩ | ⟨-, hcomp, -⟩
      · omega
      · exact hcomp

/-- Witness of C6: the sensor answers `(NaN, 48)`, then `(20, 50)`, then
`(21, 51)`; the loop is entered knowing only that the third answer is valid. -/
theorem sensor_retry_terminates_witness :
    [((none : FloatVal), (some 48 : FloatVal)), (some 20, some 50), (some 21, some 51)].get? 2 =
      some (some 21, some 51) ∧
    ∃ k t h, k ≤ 2 ∧
      [((none : FloatVal), (some 48 : FloatVal)), (some 20, some 50), (some 21, some 51)].get? k =
        some (some t, some h) ∧
      (∀ j, j < k → ∀ r,
        [((none : FloatVal), (some 48 : FloatVal)), (some 20, some 50), (some 21, some 51)].get? j =
          some r → (isnan r.1 || isnan r.2) = true) ∧
      readSensor [(none, some 48), (some 20, some 50), (some 21, some 51)] =
        some (t, h, failedAttempts k) ∧
      failedAttempts k = (List.replicate k [Event.printRetry, Event.delay 2000]).flatten ∧
      (∀ (s : State) (inp : Input),
        inp.dht22 = [(none, some 48), (some 20, some 50), (some 21, some 51)] →
        600000 ≤ usub (inp.millis % 2 ^ 32) s.lastMeasurementTime →
        ∃ out, loop s inp = some out ∧ acceptedReadings out.trace = [(t, h)] ∧
          (s.measurementCount + 1 < 6 ∨ inp.smtpConnect = false →
            out.state.tempSum = s.tempSum + t ∧ out.state.humiSum = s.humiSum + h ∧
            out.state.measurementCount = s.measurementCount + 1) ∧
          (6 ≤ s.measurementCount + 1 →
            composedAverages out.trace =
              [((s.tempSum + t) / ((s.measurementCount + 1 : Int) : ℚ),
                (s.humiSum + h) / ((s.measurementCount + 1 : Int) : ℚ))])) :=
  ⟨rfl, sensor_retry_terminates [(none, some 48), (some 20, some 50), (some 21, some 51)]
    2 21 51 rfl⟩

/-- C7 (amended): whenever an iteration computes the averages and calls the
mail transport, `measurementCount` is at least 6 at that point; and it is
exactly 6 (`measurementCount` between 0 and 5 at the start of the iteration) in
every state reached from the initial state while no call of `smtp.connect` has
failed. -/
theorem dispatch_sample_count (s : State) (inp : Input) (out : Outcome)
    (hloop : loop s inp = some out) (hmail : attemptsDispatch out.trace = true) :
    6 ≤ s.measurementCount + 1 ∧
    (ReachableConnected s →
      0 ≤ s.measurementCount ∧ s.measurementCount ≤ 5 ∧ s.measurementCount + 1 = 6) := by
  have hge : 6 ≤ s.measurementCount + 1 := by
    rcases loop_paths s inp out hloop with
      ⟨-, -, -, hno, -⟩ | ⟨-, t, h, k, -, -, -, ⟨-, -, hno, -⟩ | ⟨hge, -⟩⟩
    · rw [hno] at hmail; simp at hmail
    · rw [hno] at hmail; simp at hmail
    · exact hge
  refine ⟨hge, fun hs => ?_⟩
  have hb := count_bounds_of_reachableConnected s hs
  exact ⟨hb.1, hb.2, by omega⟩

/-- Witness of C7: the sixth iteration after five measurements dispatches with
`measurementCount = 6`. -/
theorem dispatch_sample_count_witness :
    loop fiveState (sampleInput 3600000 25 55) = some sixthOutcome ∧
    attemptsDispatch sixthOutcome.trace = true ∧
    ReachableConnected fiveState ∧
    6 ≤ fiveState.measurementCount + 1 ∧
    (ReachableConnected fiveState →
      0 ≤ fiveState.measurementCount ∧ fiveState.measurementCount ≤ 5 ∧
      fiveState.measurementCount + 1 = 6) :=
  ⟨loop_sixth, attemptsDispatch_sixthOutcome, reachableConnected_fiveState,
    dispatch_sample_count fiveState (sampleInput 3600000 25 55) sixthOutcome loop_sixth
      attemptsDispatch_sixthOutcome⟩

/-- Counterexample to C7 as stated: after a sixth measurement whose
`smtp.connect` fails the firmware is in a reachable state with
`measurementCount = 6`, and the next measuring iteration computes its averages
over seven readings and dispatches them. -/
theorem dispatch_of_seven_samples :
    Reachable stalledState ∧ stalledState.measurementCount = 6 ∧
    loop stalledState (sampleInput 4200000 32 62) = some seventhOutcome ∧
    attemptsDispatch seventhOutcome.trace = true ∧
    stalledState.measurementCount + 1 = 7 ∧
    composedAverages seventhOutcome.trace =
      [((20 + 21 + 22 + 23 + 24 + 25 + 32) / 7, (50 + 51 + 52 + 53 + 54 + 55 + 62) / 7)] := by
  refine ⟨?_, rfl, loop_seventh, ?_, rfl, ?_⟩
  · exact Reachable.step sixthInputOffline
      (reachable_of_run fiveInputs initState fiveState fiveTraces Reachable.init run_fiveInputs)
      loop_sixthOffline
  · simp [seventhOutcome, attemptsDispatch, attemptsDispatch_append, blinkLED,
      attemptsDispatch_blinkLoop]
  · simp [seventhOutcome, composedAverages, composedAverages_append, blinkLED,
      composedAverages_blinkLoop]
    norm_num

/-- C8 (amended): the heartbeat timer gate.  An iteration that ends performs the
heartbeat blink `blinkLED(1, 500)`, as the first thing it does, exactly when the
Wi-Fi is connected and `now - lastMinuteBlink >= 60000` in unsigned 32-bit
arithmetic, and then ends with `lastMinuteBlink = now`; otherwise
`lastMinuteBlink` is unchanged.  The rest of the iteration is what the same
iteration does without the blink, so the blink changes neither
`lastMeasurementTime` nor the accumulator; and the blink is the same from any
state with the same `lastMinuteBlink`, so it reads neither. -/
theorem heartbeat_timer_gate (s : State) (inp : Input) (out : Outcome)
    (hloop : loop s inp = some out) :
    (out.state.lastMinuteBlink =
      if inp.wifiConnected = true ∧ 60000 ≤ usub (inp.millis % 2 ^ 32) s.lastMinuteBlink
      then inp.millis % 2 ^ 32 else s.lastMinuteBlink) ∧
    (∃ rest, out.trace =
        (if inp.wifiConnected = true ∧ 60000 ≤ usub (inp.millis % 2 ^ 32) s.lastMinuteBlink
         then blinkLED 1 500 else []) ++ rest ∧
      Event.delay 500 ∉ rest ∧
      loop s { inp with wifiConnected := false } =
        some ⟨{ out.state with lastMinuteBlink := s.lastMinuteBlink }, rest⟩) ∧
    (∀ (s2 : State) (inp2 : Input) (out2 : Outcome),
      s2.lastMinuteBlink = s.lastMinuteBlink → inp2.millis = inp.millis →
      inp2.wifiConnected = inp.wifiConnected → loop s2 inp2 = some out2 →
      out2.state.lastMinuteBlink = out.state.lastMinuteBlink ∧
      ∃ rest2, out2.trace =
        (if inp.wifiConnected = true ∧ 60000 ≤ usub (inp.millis % 2 ^ 32) s.lastMinuteBlink
         then blinkLED 1 500 else []) ++ rest2 ∧
        Event.delay 500 ∉ rest2) := by
  have key : ∀ (s : State) (inp : Input) (out : Outcome), loop s inp = some out →
      out.state.lastMinuteBlink =
        (if inp.wifiConnected = true ∧ 60000 ≤ usub (inp.millis % 2 ^ 32) s.lastMinuteBlink
         then inp.millis % 2 ^ 32 else s.lastMinuteBlink) ∧
      ∃ m, measure (heartbeat s (inp.millis % 2 ^ 32) inp.wifiConnected).state
          (inp.millis % 2 ^ 32) inp = some m ∧
        out.trace =
          (if inp.wifiConnected = true ∧ 60000 ≤ usub (inp.millis % 2 ^ 32) s.lastMinuteBlink
           then blinkLED 1 500 else []) ++ m.trace ∧
        out.state = m.state ∧ Event.delay 500 ∉ m.trace := by
    intro s inp out hloop
    obtain ⟨m, hm, rfl⟩ := loop_unfold s inp out hloop
    refine ⟨?_, m, hm, ?_, rfl, measure_no_delay500 _ _ _ _ hm⟩
    · show m.state.lastMinuteBlink = _
      rw [measure_keeps_lastMinuteBlink _ _ _ _ hm, heartbeat_lastMinuteBlink]
      simp only [heartbeat_fires_iff]
    · show (heartbeat s (inp.millis % 2 ^ 32) inp.wifiConnected).trace ++ m.trace = _
      rw [heartbeat_trace]
      simp only [heartbeat_fires_iff]
  obtain ⟨h1, m, hm, htr, hst, hno⟩ := key s inp out hloop
  refine ⟨h1, ⟨m.trace, htr, hno, ?_⟩, ?_⟩
  · have hrest := measure_lastMinuteBlink
      (heartbeat s (inp.millis % 2 ^ 32) inp.wifiConnected).state (inp.millis % 2 ^ 32) inp
      s.lastMinuteBlink
    rw [heartbeat_state_restore, hm] at hrest
    have hw : measure s (inp.millis % 2 ^ 32) { inp with wifiConnected := false } =
        measure s (inp.millis % 2 ^ 32) inp := rfl
    unfold loop
    rw [show ({ inp with wifiConnected := false } : Input).millis % ULONG_RANGE =
      inp.millis % 2 ^ 32 from rfl]
    simp only [heartbeat, Bool.false_and, Bool.false_eq_true, if_false, hw, hrest,
      Option.map_some', List.nil_append, hst]
  · intro s2 inp2 out2 hs hmil hwifi hloop2
    obtain ⟨h2, m2, -, htr2, -, hno2⟩ := key s2 inp2 out2 hloop2
    rw [hs, hmil, hwifi] at h2 htr2
    exact ⟨by rw [h2, h1], m2.trace, htr2, hno2⟩

/-- Witness of C8: with the Wi-Fi up, one minute after start the iteration
blinks once and sets `lastMinuteBlink` to the current time. -/
theorem heartbeat_timer_gate_witness :
    loop initState blinkInput = some blinkOutcome ∧
    blinkOutcome.state.lastMinuteBlink =
      (if blinkInput.wifiConnected = true ∧
          60000 ≤ usub (blinkInput.millis % 2 ^ 32) initState.lastMinuteBlink
       then blinkInput.millis % 2 ^ 32 else initState.lastMinuteBlink) ∧
    blinkOutcome.state.lastMinuteBlink = 60000 :=
  ⟨loop_blinkInput, (heartbeat_timer_gate initState blinkInput blinkOutcome loop_blinkInput).1,
    rfl⟩

/-- Counterexample to C8 as stated: with the Wi-Fi down, one minute after start
`now - lastMinuteBlink >= 60000` holds, yet the iteration does nothing and
leaves `lastMinuteBlink` as it was. -/
theorem heartbeat_needs_wifi :
    60000 ≤ usub ((sampleInput 60000 20 50).millis % 2 ^ 32) initState.lastMinuteBlink ∧
    loop initState (sampleInput 60000 20 50) = some ⟨initState, []⟩ ∧
    initState.lastMinuteBlink ≠ (sampleInput 60000 20 50).millis % 2 ^ 32 := by
  refine ⟨by decide, ?_, by decide⟩
  simp [loop, measure, heartbeat, measurementDue, usub, ULONG_RANGE, MEASUREMENT_INTERVAL,
    initState, sampleInput]

/-- C9, evaluated: the iteration that accepts the reading `(20, 50)` writes five
HIGH-then-LOW pulses to the LED between printing the reading and updating the
accumulator, one more than the four of the comment at line 105. -/
theorem measurement_blinks_five_times :
    loop initState retryInput = some retryOutcome ∧
    retryOutcome.trace = failedAttempts 1 ++ Event.printReading 20 50 :: blinkLED 5 100 ∧
    ledWrites (blinkLED 5 100) = pulses 5 ∧
    ledWrites retryOutcome.trace =
      [true, false, true, false, true, false, true, false, true, false] ∧
    ledWrites retryOutcome.trace = pulses 5 ∧
    ledWrites retryOutcome.trace ≠ pulses 4 := by
  refine ⟨loop_retryInput, rfl, ledWrites_blinkLED 5 100, rfl, rfl, by decide⟩

/-- C10: the timer gates are correct across rollover of the 32-bit millisecond
clock.  For a 32-bit timestamp `last` and a true elapsed time `d < 2 ^ 32`, with
`now = (last + d) mod 2 ^ 32`, the unsigned difference `now - last` is `d`, the
comparison of line 82 holds exactly when `d >= 600000` and the comparison of
line 75 exactly when `d >= 60000`. -/
theorem timer_gates_rollover (last d : Nat) (hlast : last < 2 ^ 32) (hd : d < 2 ^ 32) :
    usub ((last + d) % 2 ^ 32) last = d ∧
    (measurementDue last ((last + d) % 2 ^ 32) = true ↔ 600000 ≤ d) ∧
    (blinkDue last ((last + d) % 2 ^ 32) = true ↔ 60000 ≤ d) := by
  have h := usub_add last d hlast hd
  refine ⟨h, ?_, ?_⟩
  · rw [measurementDue_iff, h]
  · rw [blinkDue_iff, h]

/-- Witness of C10: the clock rolls over between `last = 2 ^ 32 - 1000` and
`now = 599000`, ten minutes later. -/
theorem timer_gates_rollover_witness :
    (599000 : Nat) < 4294966296 ∧ (4294966296 + 600000) % 2 ^ 32 = 599000 ∧
    usub ((4294966296 + 600000) % 2 ^ 32) 4294966296 = 600000 ∧
    (measurementDue 4294966296 ((4294966296 + 600000) % 2 ^ 32) = true ↔ 600000 ≤ 600000) ∧
    (blinkDue 4294966296 ((4294966296 + 600000) % 2 ^ 32) = true ↔ 60000 ≤ 600000) :=
  ⟨by decide, by decide, timer_gates_rollover 4294966296 600000 (by decide) (by decide)⟩

end HomeMeteoStation
